import Mathlib

/-!
Verification development for the AI-Document-Converter backend.

The definitions below are shallow embeddings of the Python functions in
`backend/` (the legacy top-level modules `services/file_processor.py`,
`services/ai_service.py`, `worker.py`, `main.py`, `app.py`) and in the
newer `backend/app/` package (`app/services/file_processor.py`,
`app/services/ai_service.py`, `app/tasks/ai_conversions.py`,
`app/tasks/non_ai_conversions.py`, `app/main.py`,
`app/api/v1/endpoints/conversion_tasks.py`).  Text that the Python code
manipulates character by character is modelled as `List Char`; opaque
identifiers and messages are modelled as `String`.  Fallible Python code
is modelled with `Except` (an `.error` value models an exception
propagating out of the modelled function), and external effects
(filesystem writes, COM calls, the Celery broker) are modelled by
explicit outcome fields recording which actions occurred.
-/

namespace ADC

/-- Character-level text, as Python `str` for the purposes of slicing,
stripping and joining. -/
abbrev Str := List Char

/-- The whitespace characters removed by Python `str.strip()` with no
argument (the six ASCII whitespace characters). -/
def isPySpace (c : Char) : Bool :=
  c == ' ' || c == '\t' || c == '\n' || c == '\r' || c == '\x0b' || c == '\x0c'

/-- Python `s.strip()`: drop leading and trailing whitespace. -/
def pyStrip (s : Str) : Str :=
  ((s.dropWhile isPySpace).reverse.dropWhile isPySpace).reverse

/-- Python `s.lower()` restricted to ASCII, which is all the code applies
it to (file extensions and provider names). -/
def strLower (s : Str) : Str := s.map Char.toLower

theorem dropWhile_head_false (p : Char → Bool) :
    ∀ (l : Str) (c : Char), (l.dropWhile p).head? = some c → p c = false := by
  intro l
  induction l with
  | nil => intro c h; simp [List.dropWhile] at h
  | cons a t ih =>
      intro c h
      rw [List.dropWhile_cons] at h
      by_cases hpa : p a = true
      · exact ih c (by simpa [hpa] using h)
      · simp [hpa] at h
        rw [← h]
        simpa using hpa

theorem dropWhile_self_of_head (p : Char → Bool) (l : Str)
    (h : ∀ c, l.head? = some c → p c = false) : l.dropWhile p = l := by
  cases l with
  | nil => rfl
  | cons a t => simp [List.dropWhile_cons, h a rfl]

theorem dropWhile_idem (p : Char → Bool) (l : Str) :
    (l.dropWhile p).dropWhile p = l.dropWhile p :=
  dropWhile_self_of_head p _ (fun c hc => dropWhile_head_false p l c hc)

theorem pyStrip_idem (s : Str) : pyStrip (pyStrip s) = pyStrip s := by
  unfold pyStrip
  set a := s.dropWhile isPySpace with ha
  set b := a.reverse.dropWhile isPySpace with hb
  have h1 : b.reverse.dropWhile isPySpace = b.reverse := by
    apply dropWhile_self_of_head
    intro c hc
    have hsplit : a.reverse.takeWhile isPySpace ++ b = a.reverse := by
      rw [hb]; exact List.takeWhile_append_dropWhile isPySpace a.reverse
    have ha2 : a = b.reverse ++ (a.reverse.takeWhile isPySpace).reverse := by
      have h := congrArg List.reverse hsplit
      simpa [List.reverse_append] using h.symm
    have hha : a.head? = some c := by
      rw [ha2]
      cases hbr : b.reverse with
      | nil => rw [hbr] at hc; simp at hc
      | cons x xs =>
          rw [hbr] at hc
          simp at hc
          simp [hc]
    exact dropWhile_head_false isPySpace s c hha
  rw [h1, List.reverse_reverse, hb, dropWhile_idem]

theorem pyStrip_nil : pyStrip [] = [] := rfl

theorem ne_nil_of_pyStrip_ne_nil {s : Str} (h : pyStrip s ≠ []) : s ≠ [] := by
  intro hs
  rw [hs] at h
  exact h pyStrip_nil

/-! ## PDF text extraction

Model of the PDF branches of `backend/app/services/file_processor.py`
(`_extract_text_with_ocr`, `extract_text_from_pdf`) and of
`backend/services/file_processor.py` (`_extract_text_with_ocr`,
`extract_text_smart`, `.pdf` branch).  A PDF page is modelled by the
text PyMuPDF returns for it directly and by the outcome of running
Tesseract on its rendered bitmap (`none` models the OCR call raising an
exception on that page); a document carries whether `fitz.open`
succeeds and whether the tier-1 page-text walk raises. -/

structure PdfPage where
  /-- The value of `page.get_text("text", sort=True)`. -/
  directText : Str
  /-- The outcome of `pytesseract.image_to_string` on the rendered page:
  `some t` is a returned string, `none` models a raised exception. -/
  ocrText : Option Str

structure PdfDoc where
  /-- Whether `fitz.open(input_path)` succeeds. -/
  openable : Bool
  /-- Whether the tier-1 walk `"\n\n".join(page.get_text(...) for page in doc)`
  completes without raising. -/
  directOk : Bool
  pages : List PdfPage

/-- The separator of `"\n\n".join(...)` in the tier-1 walk. -/
def paraBreak : Str := "\n\n".toList

/-- The separator `"\n\n--- Page Break ---\n\n"` joining per-page OCR
outputs in both `_extract_text_with_ocr` variants. -/
def pageBreakMarker : Str := "\n\n--- Page Break ---\n\n".toList

/-- The tier-1 direct extraction text
`"\n\n".join(page.get_text("text", sort=True) for page in doc)`. -/
def tier1Text (d : PdfDoc) : Str :=
  List.intercalate paraBreak (d.pages.map PdfPage.directText)

/-- `backend/app/services/file_processor.py` `_extract_text_with_ocr`:
returns `""` when the OCR libraries are unavailable; otherwise OCRs each
page inside a per-page `try`, appending a page output only when it is
truthy (`if page_text:`), skipping pages whose OCR raises
(`except ... continue`), and joins the collected outputs with the page
break marker. -/
def extract_text_with_ocr_app (ocrAvailable : Bool) (pages : List PdfPage) : Str :=
  if ocrAvailable = false then []
  else
    List.intercalate pageBreakMarker
      (pages.filterMap fun p =>
        match p.ocrText with
        | none => none
        | some t => if t = [] then none else some t)

inductive PdfError where
  /-- `FileProcessingError` raised because `fitz.open` failed. -/
  | cannotOpen
  /-- An exception raised by the tier-1 page walk, propagating uncaught
  (possible only in the legacy `extract_text_smart`, which has no
  `try` around the walk). -/
  | directRaise
  /-- An exception raised by a per-page OCR call, propagating uncaught
  (possible only in the legacy `_extract_text_with_ocr`, which has no
  per-page `try`). -/
  | ocrPageRaise

/-- `backend/services/file_processor.py` `_extract_text_with_ocr`: same
join, but no per-page exception handling — an OCR exception on any page
propagates — and page outputs are appended unconditionally. -/
def extract_text_with_ocr_legacy (ocrAvailable : Bool) (pages : List PdfPage) :
    Except PdfError Str :=
  if ocrAvailable = false then .ok []
  else
    match pages.mapM PdfPage.ocrText with
    | none => .error .ocrPageRaise
    | some ts => .ok (List.intercalate pageBreakMarker ts)

/-- The provenance tier of the spec data model: which strategy produced
the returned text. -/
inductive Tier where
  | direct
  | ocrFallback

structure PdfExtraction where
  text : Str
  tier : Tier

/-- One run of a PDF extraction function: its outcome (an `.error`
models an exception propagating to the caller) and whether the OCR
fallback helper was invoked. -/
structure PdfRun where
  outcome : Except PdfError PdfExtraction
  ocrInvoked : Bool

/-- `backend/app/services/file_processor.py` `extract_text_from_pdf`:
open (wrapping failure in `FileProcessingError`), tier-1 walk with its
exception caught and replaced by `""`, threshold test on the stripped
tier-1 text, then OCR fallback; an OCR result that strips to empty falls
back to the stripped tier-1 text.  The pure local variables `tier1_text`
and `ocr_text` of the Python function are inlined, and its
`if ocr_text.strip(): ... else: ...` is rendered with the branches
swapped under the negated condition. -/
def extract_text_from_pdf (ocrAvailable : Bool) (d : PdfDoc)
    (ocr_threshold : Nat := 100) : PdfRun :=
  if d.openable = false then ⟨.error .cannotOpen, false⟩
  else if ocr_threshold < (pyStrip (if d.directOk then tier1Text d else [])).length then
    ⟨.ok ⟨pyStrip (if d.directOk then tier1Text d else []), .direct⟩, false⟩
  else if pyStrip (extract_text_with_ocr_app ocrAvailable d.pages) = [] then
    ⟨.ok ⟨pyStrip (if d.directOk then tier1Text d else []), .direct⟩, true⟩
  else
    ⟨.ok ⟨pyStrip (extract_text_with_ocr_app ocrAvailable d.pages), .ocrFallback⟩, true⟩

/-- `backend/services/file_processor.py` `extract_text_smart`, `.pdf`
branch: `fitz.open` (failure propagates), unguarded tier-1 walk,
hard-coded threshold 100, then
`return _extract_text_with_ocr(doc).strip() or text.strip()` — the
string `or` picks the stripped OCR text when it is non-empty, else the
stripped tier-1 text; it is rendered here with the branches swapped
under the negated condition. -/
def extract_text_smart_pdf (ocrAvailable : Bool) (d : PdfDoc) : PdfRun :=
  if d.openable = false then ⟨.error .cannotOpen, false⟩
  else if d.directOk = false then ⟨.error .directRaise, false⟩
  else if 100 < (pyStrip (tier1Text d)).length then
    ⟨.ok ⟨pyStrip (tier1Text d), .direct⟩, false⟩
  else
    match extract_text_with_ocr_legacy ocrAvailable d.pages with
    | .error e => ⟨.error e, true⟩
    | .ok ocr =>
        if pyStrip ocr = [] then ⟨.ok ⟨pyStrip (tier1Text d), .direct⟩, true⟩
        else ⟨.ok ⟨pyStrip ocr, .ocrFallback⟩, true⟩

/-! ### Concrete documents used by witnesses and counterexamples -/

/-- A page whose direct text is 150 non-whitespace characters. -/
def pageLong : PdfPage := ⟨List.replicate 150 'a', some "ocr text".toList⟩

def docLong : PdfDoc := ⟨true, true, [pageLong]⟩

def docShort : PdfDoc := ⟨true, true, [⟨"short".toList, some "ocr body".toList⟩]⟩

def pageOne : PdfPage := ⟨[], some "Page one text".toList⟩

/-- A page on which the OCR call raises. -/
def pageBad : PdfPage := ⟨[], none⟩

def pageThree : PdfPage := ⟨[], some "Page three text".toList⟩

def docC5 : PdfDoc := ⟨true, true, [pageOne, pageBad, pageThree]⟩

def docC6 : PdfDoc := ⟨true, true, [⟨"tiny".toList, none⟩]⟩

/-- A scanned-style document whose tier-1 text is empty and whose OCR
output is pure whitespace. -/
def docEmptyOcr : PdfDoc := ⟨true, true, [⟨[], some "   ".toList⟩]⟩

/-- Helper: on an openable document, `extract_text_from_pdf` always
returns a successful outcome. -/
theorem extract_text_from_pdf_ok (avail : Bool) (d : PdfDoc) (thr : Nat)
    (hopen : d.openable = true) :
    ∃ res, (extract_text_from_pdf avail d thr).outcome = .ok res := by
  by_cases h1 : thr < (pyStrip (if d.directOk then tier1Text d else [])).length
  · exact ⟨⟨pyStrip (if d.directOk then tier1Text d else []), .direct⟩,
      by simp [extract_text_from_pdf, hopen, h1]⟩
  · by_cases h2 : pyStrip (extract_text_with_ocr_app avail d.pages) = []
    · exact ⟨⟨pyStrip (if d.directOk then tier1Text d else []), .direct⟩,
        by simp [extract_text_from_pdf, hopen, h1, h2]⟩
    · exact ⟨⟨pyStrip (extract_text_with_ocr_app avail d.pages), .ocrFallback⟩,
        by simp [extract_text_from_pdf, hopen, h1, h2]⟩

/-- Helper: every outcome of `extract_text_from_pdf` is either the
open-failure error or a success whose text is a stripped string. -/
theorem extract_text_from_pdf_shape (avail : Bool) (d : PdfDoc) (thr : Nat) :
    (extract_text_from_pdf avail d thr).outcome = .error .cannotOpen ∨
    ∃ s t, (extract_text_from_pdf avail d thr).outcome = .ok ⟨pyStrip s, t⟩ := by
  by_cases hop : d.openable = false
  · exact Or.inl (by simp [extract_text_from_pdf, hop])
  · right
    by_cases h1 : thr < (pyStrip (if d.directOk then tier1Text d else [])).length
    · exact ⟨(if d.directOk then tier1Text d else []), .direct,
        by simp [extract_text_from_pdf, hop, h1]⟩
    · by_cases h2 : pyStrip (extract_text_with_ocr_app avail d.pages) = []
      · exact ⟨(if d.directOk then tier1Text d else []), .direct,
          by simp [extract_text_from_pdf, hop, h1, h2]⟩
      · exact ⟨extract_text_with_ocr_app avail d.pages, .ocrFallback,
          by simp [extract_text_from_pdf, hop, h1, h2]⟩

/-- Helper: every outcome of the legacy `extract_text_smart` PDF branch
is either an error or a success whose text is a stripped string. -/
theorem extract_text_smart_pdf_shape (avail : Bool) (d : PdfDoc) :
    (∃ e, (extract_text_smart_pdf avail d).outcome = .error e) ∨
    ∃ s t, (extract_text_smart_pdf avail d).outcome = .ok ⟨pyStrip s, t⟩ := by
  by_cases hop : d.openable = false
  · exact Or.inl ⟨.cannotOpen, by simp [extract_text_smart_pdf, hop]⟩
  · by_cases hdir : d.directOk = false
    · exact Or.inl ⟨.directRaise, by simp [extract_text_smart_pdf, hop, hdir]⟩
    · by_cases h1 : 100 < (pyStrip (tier1Text d)).length
      · exact Or.inr ⟨tier1Text d, .direct,
          by simp [extract_text_smart_pdf, hop, hdir, h1]⟩
      · cases hE : extract_text_with_ocr_legacy avail d.pages with
        | error e =>
            exact Or.inl ⟨e, by simp [extract_text_smart_pdf, hop, hdir, h1, hE]⟩
        | ok ocr =>
            by_cases h2 : pyStrip ocr = []
            · exact Or.inr ⟨tier1Text d, .direct,
                by simp [extract_text_smart_pdf, hop, hdir, h1, hE, h2]⟩
            · exact Or.inr ⟨ocr, .ocrFallback,
                by simp [extract_text_smart_pdf, hop, hdir, h1, hE, h2]⟩

/-- Claim C1: for every openable PDF (whose tier-1 walk succeeds), if
the stripped tier-1 text is strictly longer than the threshold then
extraction returns exactly that stripped tier-1 text with tier `direct`
and the OCR fallback is never invoked; if it is at most the threshold,
the OCR fallback is invoked.  Proved for `extract_text_from_pdf`
(arbitrary threshold, default 100) and for the legacy
`extract_text_smart` PDF branch (hard-coded threshold 100). -/
theorem C1_threshold_gate (avail : Bool) (d : PdfDoc) (thr : Nat)
    (hopen : d.openable = true) (hdir : d.directOk = true) :
    ((pyStrip (tier1Text d)).length > thr →
       extract_text_from_pdf avail d thr =
         ⟨.ok ⟨pyStrip (tier1Text d), .direct⟩, false⟩) ∧
    ((pyStrip (tier1Text d)).length ≤ thr →
       (extract_text_from_pdf avail d thr).ocrInvoked = true) ∧
    ((pyStrip (tier1Text d)).length > 100 →
       extract_text_smart_pdf avail d =
         ⟨.ok ⟨pyStrip (tier1Text d), .direct⟩, false⟩) ∧
    ((pyStrip (tier1Text d)).length ≤ 100 →
       (extract_text_smart_pdf avail d).ocrInvoked = true) := by
  refine ⟨?_, ?_, ?_, ?_⟩
  · intro h
    simp [extract_text_from_pdf, hopen, hdir, h]
  · intro h
    have h2 : ¬ thr < (pyStrip (tier1Text d)).length := by omega
    simp only [extract_text_from_pdf, hopen, hdir]
    simp [h2]
    split <;> rfl
  · intro h
    simp [extract_text_smart_pdf, hopen, hdir, h]
  · intro h
    have h2 : ¬ 100 < (pyStrip (tier1Text d)).length := by omega
    simp only [extract_text_smart_pdf, hopen, hdir]
    simp [h2]
    split
    · rfl
    · split <;> rfl

set_option maxRecDepth 8000 in
theorem C1_threshold_gate_witness :
    extract_text_from_pdf true docLong 100 =
      ⟨.ok ⟨pyStrip (tier1Text docLong), .direct⟩, false⟩ ∧
    extract_text_smart_pdf true docLong =
      ⟨.ok ⟨pyStrip (tier1Text docLong), .direct⟩, false⟩ ∧
    (extract_text_from_pdf true docShort 100).ocrInvoked = true :=
  ⟨(C1_threshold_gate true docLong 100 rfl rfl).1 (by decide),
   (C1_threshold_gate true docLong 100 rfl rfl).2.2.1 (by decide),
   (C1_threshold_gate true docShort 100 rfl rfl).2.1 (by decide)⟩

/-- Claim C5 counterexample: `docC5` is an openable PDF with a short
tier-1 text that enters the OCR fallback of the legacy
`extract_text_smart`; the OCR exception on its second page propagates
and aborts extraction of the whole document instead of being skipped. -/
theorem C5_counterexample :
    (extract_text_smart_pdf true docC5).ocrInvoked = true ∧
    (extract_text_smart_pdf true docC5).outcome = .error .ocrPageRaise ∧
    docC5.openable = true :=
  ⟨rfl, rfl, rfl⟩

/-- Claim C5 (amended): in the app-package OCR helper
(`backend/app/services/file_processor.py` `_extract_text_with_ocr`) a
page whose OCR raises is skipped and the result is exactly the result
over the remaining pages, joined by the page-break marker; and
extraction via `extract_text_from_pdf` never errors on an openable
document.  The legacy `_extract_text_with_ocr` in
`backend/services/file_processor.py` has no per-page guard, so there a
page failure aborts the whole extraction. -/
theorem C5_page_skip (l r : List PdfPage) (p : PdfPage) (hp : p.ocrText = none) :
    extract_text_with_ocr_app true (l ++ p :: r) =
      extract_text_with_ocr_app true (l ++ r) ∧
    (∀ avail d thr, d.openable = true →
       ∃ res, (extract_text_from_pdf avail d thr).outcome = .ok res) := by
  constructor
  · simp [extract_text_with_ocr_app, List.filterMap_append, hp]
  · intro avail d thr hopen
    exact extract_text_from_pdf_ok avail d thr hopen

theorem C5_page_skip_witness :
    extract_text_with_ocr_app true ([pageOne] ++ pageBad :: [pageThree]) =
      extract_text_with_ocr_app true ([pageOne] ++ [pageThree]) ∧
    (∃ res, (extract_text_from_pdf true docC5 100).outcome = .ok res) :=
  ⟨(C5_page_skip [pageOne] [pageThree] pageBad rfl).1,
   (C5_page_skip [pageOne] [pageThree] pageBad rfl).2 true docC5 100 rfl⟩

/-- Claim C6 counterexample: `docC6` can be opened, yet the legacy
`extract_text_smart` fails on it (its short tier-1 text enters the OCR
fallback and the unguarded OCR call raises), so extraction failure is
not reserved for documents that cannot be opened. -/
theorem C6_counterexample :
    docC6.openable = true ∧
    (extract_text_smart_pdf true docC6).outcome = .error .ocrPageRaise :=
  ⟨rfl, rfl⟩

/-- Claim C6 (amended): `extract_text_from_pdf` (app package) fails if
and only if the document cannot be opened; in particular when the OCR
fallback strips to the empty string it returns the stripped (possibly
empty) tier-1 text instead of failing, and it never fails because the
text is short.  The legacy `extract_text_smart` can additionally fail on
an openable document when the tier-1 walk or a per-page OCR call
raises. -/
theorem C6_fail_iff_unopenable (avail : Bool) (d : PdfDoc) (thr : Nat) :
    ((∃ e, (extract_text_from_pdf avail d thr).outcome = .error e) ↔
       d.openable = false) ∧
    (d.openable = true →
       pyStrip (extract_text_with_ocr_app avail d.pages) = [] →
       (extract_text_from_pdf avail d thr).outcome =
         .ok ⟨pyStrip (if d.directOk then tier1Text d else []), .direct⟩) := by
  constructor
  · constructor
    · rintro ⟨e, he⟩
      by_cases hop : d.openable = false
      · exact hop
      · obtain ⟨res, hres⟩ :=
          extract_text_from_pdf_ok avail d thr (by simpa using hop)
        rw [hres] at he
        simp at he
    · intro hop
      exact ⟨.cannotOpen, by simp [extract_text_from_pdf, hop]⟩
  · intro hop hocr
    by_cases h1 : thr < (pyStrip (if d.directOk then tier1Text d else [])).length
    · simp [extract_text_from_pdf, hop, h1]
    · simp [extract_text_from_pdf, hop, h1, hocr]

theorem C6_fail_iff_unopenable_witness :
    (extract_text_from_pdf true docEmptyOcr 100).outcome =
      .ok ⟨pyStrip (if docEmptyOcr.directOk then tier1Text docEmptyOcr else []),
           .direct⟩ :=
  (C6_fail_iff_unopenable true docEmptyOcr 100).2 rfl (by decide)

/-- Claim C10: every successful PDF extraction returns text with no
leading or trailing whitespace — stripping the returned text yields the
text itself on every return path, for both `extract_text_from_pdf` and
the legacy `extract_text_smart` PDF branch. -/
theorem C10_result_stripped (avail : Bool) (d : PdfDoc) (thr : Nat)
    (r : PdfExtraction) :
    ((extract_text_from_pdf avail d thr).outcome = .ok r →
       pyStrip r.text = r.text) ∧
    ((extract_text_smart_pdf avail d).outcome = .ok r →
       pyStrip r.text = r.text) := by
  constructor
  · intro h
    rcases extract_text_from_pdf_shape avail d thr with hc | ⟨s, t, hs⟩
    · rw [h] at hc
      simp at hc
    · rw [h] at hs
      have hr := Except.ok.inj hs
      rw [hr]
      exact pyStrip_idem s
  · intro h
    rcases extract_text_smart_pdf_shape avail d with ⟨e, hc⟩ | ⟨s, t, hs⟩
    · rw [h] at hc
      simp at hc
    · rw [h] at hs
      have hr := Except.ok.inj hs
      rw [hr]
      exact pyStrip_idem s

set_option maxRecDepth 8000 in
theorem C10_result_stripped_witness :
    pyStrip (pyStrip (tier1Text docLong)) = pyStrip (tier1Text docLong) :=
  (C10_result_stripped true docLong 100 ⟨pyStrip (tier1Text docLong), .direct⟩).1 rfl

/-! ## JSON values and the AI backend contract

Model of `backend/app/services/ai_service.py`
(`GeminiProvider.generate_structured_markdown`) and of the task modules
`backend/app/tasks/ai_conversions.py`,
`backend/app/tasks/non_ai_conversions.py` and `backend/worker.py`.  A
decoded JSON value (`json.loads`) is the inductive `Json`; the outcome
of the external Gemini call is a `GeminiResponse`. -/

inductive Json where
  | null
  | bool (b : Bool)
  | num (n : Int)
  | str (s : String)
  | arr (elems : List Json)
  | obj (fields : List (String × Json))

/-- Python truthiness of a decoded JSON value (`if not x`). -/
def Json.truthy : Json → Bool
  | .null => false
  | .bool b => b
  | .num n => n != 0
  | .str s => s != ""
  | .arr xs => !xs.isEmpty
  | .obj fs => !fs.isEmpty

inductive AIServiceError where
  | noCandidates
  | invalidJson

/-- The message of each modelled `AIServiceError`, as `str(e)` would
render it at the task boundary (the no-candidates message elides the
interpolated `prompt_feedback` value). -/
def aiErrMessage : AIServiceError → String
  | .noCandidates => "Gemini API returned no candidates."
  | .invalidJson => "AI returned an invalid JSON object."

/-- The observable behaviour of one Gemini API call: whether
`response.candidates` is non-empty, and the outcome of
`json.loads(response.text)` (`none` models `json.JSONDecodeError`). -/
structure GeminiResponse where
  hasCandidates : Bool
  parsed : Option Json

/-- `backend/app/services/ai_service.py`
`GeminiProvider.generate_structured_markdown`: raises `AIServiceError`
when the response has no candidates, raises `AIServiceError` when the
response text fails to decode as JSON, and otherwise returns whatever
`json.loads` produced — no schema check of any kind is applied to the
decoded value. -/
def generate_structured_markdown (r : GeminiResponse) :
    Except AIServiceError Json :=
  if r.hasCandidates = false then .error .noCandidates
  else
    match r.parsed with
    | some j => .ok j
    | none => .error .invalidJson

/-! ## The conversion task functions -/

/-- The environment of one `tasks.ai_conversion` execution: the
lower-cased input suffix; the outcome of the suffix-appropriate
extraction call (`.error msg` models a raised exception carrying
`str(e)`); the combined outcome of model-name resolution,
`get_ai_provider` and the API transport (`some msg` models a raised
exception from any of them); and the Gemini response when the call
succeeds. -/
structure AiTaskEnv where
  suffix : Str
  extraction : Except String Str
  providerErr : Option String
  response : GeminiResponse

/-- The failure wrapper of the app-package `ai_conversion_task`
(`f"An error occurred during AI conversion: {e}"`). -/
def aiConvFail (e : String) : String :=
  "An error occurred during AI conversion: " ++ e

/-- Outcome of the app-package `ai_conversion_task`: the returned dict,
with `fileContent` the exact string written to the output file on
success; a `failed` outcome records the content of the output file if
one was created before the failure (only the truthy-non-string write
path creates one, empty). -/
inductive AiTaskOutcome where
  | success (fileContent : String) (warnings : Json) (message : String)
  | failed (message : String) (fileContent : Option String)

/-- `backend/app/tasks/ai_conversions.py` `ai_conversion_task`:
dispatch by suffix (raising `ValueError` otherwise — the else-raise is
rendered as a guard), fail when the extracted text is falsy or strips
to empty, obtain the provider, call it, then write
`structured_result.get("markdown_content")` to the output file and
return the success dict carrying
`structured_result.get("warnings", [])`.  Every exception is caught at
the task boundary and turned into a failed dict.  Calling `.get` on a
decoded non-dict raises `AttributeError`; a falsy `markdown_content`
raises `ValueError`; `f.write` on a truthy non-string raises
`TypeError` after `open(..., "w")` has already created an empty file. -/
def ai_conversion_task (env : AiTaskEnv) : AiTaskOutcome :=
  if env.suffix = ".doc".toList ∨ env.suffix = ".docx".toList ∨
      env.suffix = ".pdf".toList then
    match env.extraction with
    | .error msg => .failed (aiConvFail msg) none
    | .ok text_content =>
      if pyStrip text_content = [] then
        .failed
          (aiConvFail "Extracted text is empty. Cannot proceed with AI conversion.")
          none
      else
        match env.providerErr with
        | some msg => .failed (aiConvFail msg) none
        | none =>
          match generate_structured_markdown env.response with
          | .error e => .failed (aiConvFail (aiErrMessage e)) none
          | .ok structured =>
            match structured with
            | .obj fields =>
              match fields.lookup "markdown_content" with
              | none =>
                  .failed (aiConvFail "AI returned an empty markdown content.") none
              | some mc =>
                if mc.truthy = false then
                  .failed (aiConvFail "AI returned an empty markdown content.") none
                else
                  match mc with
                  | .str s =>
                      .success s ((fields.lookup "warnings").getD (.arr []))
                        "File converted successfully using AI."
                  | _ =>
                      .failed (aiConvFail "TypeError: write argument must be str")
                        (some "")
            | _ => .failed (aiConvFail "AttributeError: get on a non-dict") none
  else
    .failed
      (aiConvFail ("Unsupported file type for AI conversion: " ++ String.mk env.suffix))
      none

/-- The success payload of the worker-module `ai_conversion_task`:
the string written to the output file and the warnings carried by the
returned dict. -/
structure WorkerSuccess where
  fileContent : String
  warnings : Json

/-- `backend/worker.py` `ai_conversion_task`: same pipeline driven by
the legacy `extract_text_smart` (whose suffix dispatch and exceptions
are modelled by the `extraction` field), except that the empty-text
check does not strip (`if not text_content:`), the content lookup is
`structured_result.get("markdown_content", "")`, and the `except`
block logs and then re-raises — every failure escapes the task as an
exception, modelled by `.error` carrying the exception message. -/
def worker_ai_conversion_task (env : AiTaskEnv) : Except String WorkerSuccess :=
  match env.extraction with
  | .error msg => .error msg
  | .ok text_content =>
    if text_content = [] then .error "Extracted text is empty."
    else
      match env.providerErr with
      | some msg => .error msg
      | none =>
        match generate_structured_markdown env.response with
        | .error e => .error (aiErrMessage e)
        | .ok structured =>
          match structured with
          | .obj fields =>
            if ((fields.lookup "markdown_content").getD (.str "")).truthy = false then
              .error "AI did not return any markdown content."
            else
              match (fields.lookup "markdown_content").getD (.str "") with
              | .str s => .ok ⟨s, (fields.lookup "warnings").getD (.arr [])⟩
              | _ => .error "TypeError: write argument must be str"
          | _ => .error "AttributeError: get on a non-dict"

/-- The dict returned by the PPT-to-PDF tasks. -/
inductive TaskDict where
  | success (message : String) (output_path : String)
  | failed (message : String)

/-- `backend/app/tasks/non_ai_conversions.py` `ppt_to_pdf_task`: calls
`convert_to_pdf_com` and returns a success dict; any exception is
caught and returned as a failed dict (`f"An error occurred: {e}"`). -/
def ppt_to_pdf_task (conv : Except String Unit) (output_path : String) : TaskDict :=
  match conv with
  | .ok _ => .success "File converted successfully." output_path
  | .error e => .failed ("An error occurred: " ++ e)

/-- `backend/worker.py` `ppt_to_pdf_task`: same call, but the `except`
block logs and re-raises (`raise e`), so the exception escapes the
task. -/
def worker_ppt_to_pdf_task (conv : Except String Unit) (output_path : String) :
    Except String TaskDict :=
  match conv with
  | .ok _ => .ok (.success "File converted to PDF successfully." output_path)
  | .error e => .error e

theorem append_ne_empty_left (a x : String) (ha : 0 < a.length) : a ++ x ≠ "" := by
  intro h
  have hlen := congrArg String.length h
  rw [String.length_append] at hlen
  have h0 : ("" : String).length = 0 := rfl
  rw [h0] at hlen
  omega

/-- Helper: the app-package AI task always returns a dict — either a
success dict or a failed dict whose message is the standard failure
wrapper applied to the exception message. -/
theorem ai_task_shape (env : AiTaskEnv) :
    (∃ s w m, ai_conversion_task env = .success s w m) ∨
    (∃ x f, ai_conversion_task env = .failed (aiConvFail x) f) := by
  unfold ai_conversion_task
  by_cases hsuf : env.suffix = ".doc".toList ∨ env.suffix = ".docx".toList ∨
      env.suffix = ".pdf".toList
  · rw [if_pos hsuf]
    cases hE : env.extraction with
    | error msg => exact Or.inr ⟨msg, none, rfl⟩
    | ok t =>
      simp only []
      by_cases ht : pyStrip t = []
      · rw [if_pos ht]; exact Or.inr ⟨_, _, rfl⟩
      · rw [if_neg ht]
        cases hP : env.providerErr with
        | some msg => exact Or.inr ⟨msg, none, rfl⟩
        | none =>
          cases hG : generate_structured_markdown env.response with
          | error er => exact Or.inr ⟨_, _, rfl⟩
          | ok j =>
            cases j with
            | null => exact Or.inr ⟨_, _, rfl⟩
            | bool b => exact Or.inr ⟨_, _, rfl⟩
            | num n => exact Or.inr ⟨_, _, rfl⟩
            | str s => exact Or.inr ⟨_, _, rfl⟩
            | arr xs => exact Or.inr ⟨_, _, rfl⟩
            | obj fields =>
              simp only []
              cases hL : fields.lookup "markdown_content" with
              | none => exact Or.inr ⟨_, _, rfl⟩
              | some mc =>
                simp only []
                by_cases hT : mc.truthy = false
                · rw [if_pos hT]; exact Or.inr ⟨_, _, rfl⟩
                · rw [if_neg hT]
                  cases mc with
                  | str s => exact Or.inl ⟨s, _, _, rfl⟩
                  | null => exact Or.inr ⟨_, _, rfl⟩
                  | bool b => exact Or.inr ⟨_, _, rfl⟩
                  | num n => exact Or.inr ⟨_, _, rfl⟩
                  | arr xs => exact Or.inr ⟨_, _, rfl⟩
                  | obj fs => exact Or.inr ⟨_, _, rfl⟩
  · rw [if_neg hsuf]; exact Or.inr ⟨_, _, rfl⟩

/-- Helper: whenever the provider cannot return an object with a truthy
`markdown_content`, the app-package AI task fails and writes no output
file. -/
theorem ai_task_failed_none (env : AiTaskEnv)
    (h : ∀ fields, generate_structured_markdown env.response = .ok (.obj fields) →
       ((fields.lookup "markdown_content").getD (.str "")).truthy = false)
    (h2 : ∀ j, generate_structured_markdown env.response = .ok j →
       ∃ fields, j = .obj fields) :
    ∃ msg, ai_conversion_task env = .failed msg none := by
  unfold ai_conversion_task
  by_cases hsuf : env.suffix = ".doc".toList ∨ env.suffix = ".docx".toList ∨
      env.suffix = ".pdf".toList
  · rw [if_pos hsuf]
    cases hE : env.extraction with
    | error msg => exact ⟨_, rfl⟩
    | ok t =>
      simp only []
      by_cases ht : pyStrip t = []
      · rw [if_pos ht]; exact ⟨_, rfl⟩
      · rw [if_neg ht]
        cases hP : env.providerErr with
        | some msg => exact ⟨_, rfl⟩
        | none =>
          cases hG : generate_structured_markdown env.response with
          | error er => exact ⟨_, rfl⟩
          | ok j =>
            obtain ⟨fields, rfl⟩ := h2 j hG
            have hf := h fields hG
            simp only []
            cases hL : fields.lookup "markdown_content" with
            | none => exact ⟨_, rfl⟩
            | some mc =>
              rw [hL] at hf
              simp only [Option.getD_some] at hf
              simp only []
              rw [if_pos hf]
              exact ⟨_, rfl⟩
  · rw [if_neg hsuf]; exact ⟨_, rfl⟩

/-- An AI response carrying a third field besides the two contract
fields, used to refute the exactly-two-fields reading of the
contract. -/
def envExtraField : AiTaskEnv :=
  ⟨".pdf".toList, .ok "Sample document text".toList, none,
   ⟨true, some (.obj [("markdown_content", .str "# Title"),
                      ("warnings", .arr []),
                      ("extra_field", .num 1)])⟩⟩

/-- Claim C2 counterexample: a backend response whose JSON carries a
third field `extra_field` besides `markdown_content` and `warnings` is
returned unchanged by `generate_structured_markdown` (no
exactly-these-two-fields check exists), and the conversion job succeeds
and writes the output file — contradicting the claim that such a
response is surfaced as a contract violation with no output written. -/
theorem C2_counterexample :
    generate_structured_markdown envExtraField.response =
      .ok (.obj [("markdown_content", .str "# Title"), ("warnings", .arr []),
                 ("extra_field", .num 1)]) ∧
    ai_conversion_task envExtraField =
      .success "# Title" (.arr []) "File converted successfully using AI." :=
  ⟨rfl, rfl⟩

/-- Claim C2 (amended): the provider applies no schema validation:
`generate_structured_markdown` returns any parsed JSON value unchanged,
so extra fields are ignored and `warnings` is never checked; only a
JSON parse failure is surfaced as an `AIServiceError`
(`AI returned an invalid JSON object.`), in which case the task fails
and writes no output file; and a parsed object whose
`markdown_content` is missing or the empty string also fails the job
with no output file, via a `ValueError` raised at the task boundary
rather than a provider-level contract check. -/
theorem C2_no_schema_validation (env : AiTaskEnv) :
    (∀ j, env.response.hasCandidates = true → env.response.parsed = some j →
       generate_structured_markdown env.response = .ok j) ∧
    (env.response.hasCandidates = true → env.response.parsed = none →
       generate_structured_markdown env.response = .error .invalidJson ∧
       ∃ msg, ai_conversion_task env = .failed msg none) ∧
    (∀ fields, env.response.parsed = some (.obj fields) →
       (fields.lookup "markdown_content" = none ∨
        fields.lookup "markdown_content" = some (.str "")) →
       ∃ msg, ai_conversion_task env = .failed msg none) := by
  refine ⟨?_, ?_, ?_⟩
  · intro j hc hp
    simp [generate_structured_markdown, hc, hp]
  · intro hc hp
    have hgen : generate_structured_markdown env.response = .error .invalidJson := by
      simp [generate_structured_markdown, hc, hp]
    refine ⟨hgen, ?_⟩
    apply ai_task_failed_none
    · intro fields hf
      rw [hgen] at hf
      cases hf
    · intro j hj
      rw [hgen] at hj
      cases hj
  · intro fields hp hmc
    apply ai_task_failed_none
    · intro fields2 hf
      by_cases hc : env.response.hasCandidates = false
      · rw [generate_structured_markdown, if_pos hc] at hf
        cases hf
      · rw [generate_structured_markdown, if_neg hc, hp] at hf
        simp only [] at hf
        have hfe : fields2 = fields := by
          have := Except.ok.inj hf
          exact (Json.obj.inj this.symm)
        subst hfe
        rcases hmc with hmc | hmc
        · rw [hmc]
          rfl
        · rw [hmc]
          rfl
    · intro j hj
      by_cases hc : env.response.hasCandidates = false
      · rw [generate_structured_markdown, if_pos hc] at hj
        cases hj
      · rw [generate_structured_markdown, if_neg hc, hp] at hj
        simp only [] at hj
        exact ⟨fields, (Except.ok.inj hj).symm⟩

/-- An environment in which the backend returns unparseable text. -/
def envBadJson : AiTaskEnv :=
  ⟨".pdf".toList, .ok "Body text".toList, none, ⟨true, none⟩⟩

theorem C2_no_schema_validation_witness :
    generate_structured_markdown envBadJson.response = .error .invalidJson ∧
    ∃ msg, ai_conversion_task envBadJson = .failed msg none :=
  (C2_no_schema_validation envBadJson).2.1 rfl rfl

/-- Claim C8: when the backend returns exactly
`{"markdown_content": m, "warnings": w}` with `m` a non-empty string
and `w` a JSON array, the string written to the output file is exactly
`m` and the returned success dict carries exactly `w` as its warnings
(the empty array when `w` is empty) — proved for the app-package task
and for the worker-module task. -/
theorem C8_success_payload (env : AiTaskEnv) (t : Str) (m : String) (ws : List Json)
    (hsuf : env.suffix = ".pdf".toList)
    (hext : env.extraction = .ok t)
    (ht : pyStrip t ≠ [])
    (hprov : env.providerErr = none)
    (hcand : env.response.hasCandidates = true)
    (hresp : env.response.parsed =
       some (.obj [("markdown_content", .str m), ("warnings", .arr ws)]))
    (hm : m ≠ "") :
    ai_conversion_task env =
      .success m (.arr ws) "File converted successfully using AI." ∧
    worker_ai_conversion_task env = .ok ⟨m, .arr ws⟩ := by
  have hgen : generate_structured_markdown env.response =
      .ok (.obj [("markdown_content", .str m), ("warnings", .arr ws)]) := by
    simp [generate_structured_markdown, hcand, hresp]
  have hlook1 : ([("markdown_content", Json.str m),
      ("warnings", Json.arr ws)]).lookup "markdown_content" = some (.str m) := rfl
  have hlook2 : ([("markdown_content", Json.str m),
      ("warnings", Json.arr ws)]).lookup "warnings" = some (.arr ws) := rfl
  have htruthy : ¬ (Json.str m).truthy = false := by
    simp [Json.truthy, hm]
  constructor
  · unfold ai_conversion_task
    rw [if_pos (Or.inr (Or.inr hsuf))]
    rw [hext]
    simp only []
    rw [if_neg ht, hprov]
    simp only []
    rw [hgen]
    simp only []
    rw [hlook1]
    simp only []
    rw [if_neg htruthy]
    rw [hlook2]
    rfl
  · unfold worker_ai_conversion_task
    rw [hext]
    simp only []
    rw [if_neg (ne_nil_of_pyStrip_ne_nil ht), hprov]
    simp only []
    rw [hgen]
    simp only []
    rw [hlook1]
    simp only [Option.getD_some]
    rw [if_neg htruthy]
    rw [hlook2]
    rfl

/-- The environment of the spec example: the backend returns
`{"markdown_content": "# Title", "warnings": []}`. -/
def envTitle : AiTaskEnv :=
  ⟨".pdf".toList, .ok "Document body".toList, none,
   ⟨true, some (.obj [("markdown_content", .str "# Title"),
                      ("warnings", .arr [])])⟩⟩

theorem C8_success_payload_witness :
    ai_conversion_task envTitle =
      .success "# Title" (.arr []) "File converted successfully using AI." ∧
    worker_ai_conversion_task envTitle = .ok ⟨"# Title", .arr []⟩ :=
  C8_success_payload envTitle "Document body".toList "# Title" []
    rfl rfl (by decide) rfl rfl rfl (by decide)

/-- Claim C3 counterexample: the `tasks.ppt_to_pdf` and
`tasks.ai_conversion` registrations in `backend/worker.py` re-raise the
exception they catch (`raise e`), so a failing conversion escapes the
task boundary as an exception instead of being returned as a terminal
failed result. -/
theorem C3_counterexample :
    worker_ppt_to_pdf_task
        (.error "Failed to convert input.pptx via COM: COM error") "out.pdf" =
      .error "Failed to convert input.pptx via COM: COM error" ∧
    worker_ai_conversion_task
        ⟨".pdf".toList, .error "Could not open PDF file", none, ⟨true, none⟩⟩ =
      .error "Could not open PDF file" :=
  ⟨rfl, rfl⟩

/-- Claim C3 (amended): the app-package task functions
(`app/tasks/ai_conversions.py` `ai_conversion_task` and
`app/tasks/non_ai_conversions.py` `ppt_to_pdf_task`) never let an
exception escape: every run returns either a success dict or a failed
dict whose message is non-empty.  The legacy registrations of the same
task names in `backend/worker.py` instead re-raise the caught
exception, shown here for `ppt_to_pdf_task`. -/
theorem C3_tasks_never_raise (env : AiTaskEnv) (conv : Except String Unit)
    (out e : String) :
    ((∃ s w m, ai_conversion_task env = .success s w m) ∨
       (∃ msg f, ai_conversion_task env = .failed msg f ∧ msg ≠ "")) ∧
    ((∃ m, ppt_to_pdf_task conv out = .success m out) ∨
       (∃ msg, ppt_to_pdf_task conv out = .failed msg ∧ msg ≠ "")) ∧
    worker_ppt_to_pdf_task (.error e) out = .error e := by
  refine ⟨?_, ?_, rfl⟩
  · rcases ai_task_shape env with ⟨s, w, m, hs⟩ | ⟨x, f, hf⟩
    · exact Or.inl ⟨s, w, m, hs⟩
    · exact Or.inr ⟨aiConvFail x, f, hf,
        append_ne_empty_left "An error occurred during AI conversion: " x (by decide)⟩
  · cases conv with
    | ok u => exact Or.inl ⟨_, rfl⟩
    | error e2 =>
        exact Or.inr ⟨_, rfl,
          append_ne_empty_left "An error occurred: " e2 (by decide)⟩

/-! ## COM automation (Office) conversions -/

/-- Extensions dispatched to the presentation engine. -/
def pptExts : List Str := [".ppt".toList, ".pptx".toList]

/-- Extensions dispatched to the word-processor engine. -/
def wordExts : List Str := [".doc".toList, ".docx".toList]

/-- The observable behaviour of one COM session: whether each external
call succeeds (`false` models the call raising an exception). -/
structure ComEnv where
  /-- `comtypes.client.CreateObject(app_name)`. -/
  createOk : Bool
  /-- `Presentations.Open` / `Documents.Open`. -/
  openOk : Bool
  /-- `doc.SaveAs`. -/
  saveOk : Bool
  /-- `doc.Close()`. -/
  closeOk : Bool
  /-- `app.Quit()`. -/
  quitOk : Bool

inductive ComResult where
  /-- Normal return. -/
  | ok
  /-- `FileProcessingError` raised to the caller. -/
  | fileProcessingError
  /-- An exception raised inside the `finally` block propagates. -/
  | cleanupEscape

/-- One run of a COM conversion: the result seen by the caller,
and whether `doc.Close()` and `app.Quit()` were each invoked. -/
structure ComRun where
  result : ComResult
  closeCalled : Bool
  quitCalled : Bool

/-- `backend/services/file_processor.py` `convert_to_pdf_com`: the body
(including the extension dispatch) runs inside `try`, every body
exception is re-wrapped as `FileProcessingError`, and the `finally`
block runs `if doc: doc.Close()` then `if app: app.Quit()` with no
guard of its own — when `doc.Close()` raises, `app.Quit()` is never
executed and the close exception propagates. -/
def convert_to_pdf_com_legacy (ext : Str) (env : ComEnv) : ComRun :=
  if ¬(ext ∈ pptExts ∨ ext ∈ wordExts) then ⟨.fileProcessingError, false, false⟩
  else if env.createOk = false then ⟨.fileProcessingError, false, false⟩
  else if env.openOk = false then
    if env.quitOk = false then ⟨.cleanupEscape, false, true⟩
    else ⟨.fileProcessingError, false, true⟩
  else if env.saveOk = false then
    if env.closeOk = false then ⟨.cleanupEscape, true, false⟩
    else if env.quitOk = false then ⟨.cleanupEscape, true, true⟩
    else ⟨.fileProcessingError, true, true⟩
  else
    if env.closeOk = false then ⟨.cleanupEscape, true, false⟩
    else if env.quitOk = false then ⟨.cleanupEscape, true, true⟩
    else ⟨.ok, true, true⟩

/-- `backend/app/services/file_processor.py` `convert_to_pdf_com`: the
extension dispatch raises before any handle is acquired; body failures
are wrapped as `FileProcessingError`; the `finally` block closes the
document and quits the application, each inside its own
`try: ... except Exception: pass`, so both release calls are attempted
whenever the corresponding handle exists and a close failure never
skips the quit. -/
def convert_to_pdf_com_app (ext : Str) (env : ComEnv) : ComRun :=
  if ¬(ext ∈ pptExts ∨ ext ∈ wordExts) then ⟨.fileProcessingError, false, false⟩
  else if env.createOk = false then ⟨.fileProcessingError, false, false⟩
  else if env.openOk = false then ⟨.fileProcessingError, false, true⟩
  else if env.saveOk = false then ⟨.fileProcessingError, true, true⟩
  else ⟨.ok, true, true⟩

/-- A session in which only the document close raises. -/
def envCloseRaises : ComEnv := ⟨true, true, true, false, true⟩

/-- Claim C7 counterexample: in the legacy `convert_to_pdf_com`, when
`doc.Close()` raises in the `finally` block after a fully successful
body, `app.Quit()` is never executed — a failure while closing the
document skips the application quit. -/
theorem C7_counterexample :
    (convert_to_pdf_com_legacy ".pptx".toList envCloseRaises).closeCalled = true ∧
    (convert_to_pdf_com_legacy ".pptx".toList envCloseRaises).quitCalled = false :=
  ⟨rfl, rfl⟩

/-- Claim C7 (amended): in the app-package `convert_to_pdf_com` both
release actions occur on every exit path on which the corresponding
handle exists — the application is quit whenever it was created (on
normal return and on open or save failures alike) and the document
close is attempted whenever the document was opened; in the legacy
`convert_to_pdf_com` (and the same unguarded `finally` pattern appears
in `extract_text_from_doc`), a failure of `doc.Close()` skips
`app.Quit()`. -/
theorem C7_release_paths (ext : Str) (env : ComEnv)
    (hext : ext ∈ pptExts ∨ ext ∈ wordExts) :
    (env.createOk = true → (convert_to_pdf_com_app ext env).quitCalled = true) ∧
    (env.createOk = true → env.openOk = true →
       (convert_to_pdf_com_app ext env).closeCalled = true) ∧
    (env.createOk = true → env.openOk = true → env.closeOk = false →
       (convert_to_pdf_com_legacy ext env).quitCalled = false) := by
  have hno : ¬¬(ext ∈ pptExts ∨ ext ∈ wordExts) := not_not_intro hext
  refine ⟨?_, ?_, ?_⟩
  · intro hc
    unfold convert_to_pdf_com_app
    rw [if_neg hno, if_neg (by simp [hc])]
    split
    · rfl
    · split
      · rfl
      · rfl
  · intro hc ho
    unfold convert_to_pdf_com_app
    rw [if_neg hno, if_neg (by simp [hc]), if_neg (by simp [ho])]
    split
    · rfl
    · rfl
  · intro hc ho hcl
    unfold convert_to_pdf_com_legacy
    rw [if_neg hno, if_neg (by simp [hc]), if_neg (by simp [ho])]
    split <;> simp [hcl]

/-- A fully successful COM session. -/
def envComOk : ComEnv := ⟨true, true, true, true, true⟩

theorem C7_release_paths_witness :
    (convert_to_pdf_com_app ".docx".toList envComOk).quitCalled = true ∧
    (convert_to_pdf_com_app ".docx".toList envComOk).closeCalled = true ∧
    (convert_to_pdf_com_legacy ".docx".toList envCloseRaises).quitCalled = false :=
  ⟨(C7_release_paths ".docx".toList envComOk (by decide)).1 rfl,
   (C7_release_paths ".docx".toList envComOk (by decide)).2.1 rfl rfl,
   (C7_release_paths ".docx".toList envCloseRaises (by decide)).2.2 rfl rfl rfl⟩

/-! ## Upload endpoints (dispatchers) -/

/-- `TASK_TO_EXTENSIONS` in `backend/app.py`. -/
def TASK_TO_EXTENSIONS : List (Str × List Str) :=
  [("ppt_to_pdf".toList, pptExts),
   ("doc_to_markdown_ai".toList, wordExts),
   ("pdf_to_markdown_ai".toList, [".pdf".toList]),
   ("doc_to_markdown_simple".toList, wordExts)]

/-- The index of the last `.` in a file name, if any. -/
def lastDotIdx (name : Str) : Option Nat :=
  ((List.range name.length).filter (fun i => name.get? i == some '.')).getLast?

/-- `pathlib.PurePath.suffix` on a file name (the final path
component): the substring from the last dot, or empty when the name has
no dot, is a dot-file, or ends in a dot. -/
def pathSuffix (name : Str) : Str :=
  match lastDotIdx name with
  | none => []
  | some i => if 0 < i ∧ i < name.length - 1 then name.drop i else []

inductive FlaskOutcome where
  /-- 400 `No file part in the request.`, nothing persisted. -/
  | errorNoFilePart
  /-- 400 `No file selected or task type specified.`, nothing
  persisted. -/
  | errorNoSelection
  /-- 400 type-mismatch response issued before any directory is created
  or file saved. -/
  | errorTypeMismatch (task_type ext : Str)
  /-- The request passed validation: only now are the request
  directories created and the file saved, and processing proceeds. -/
  | persisted (filename : Str) (task_type : Str)

/-- The allowed-extension resolution of `backend/app.py`:
`TASK_TO_EXTENSIONS.get(task_type)`, falling back to `.doc`/`.docx`
when the unknown task name contains `doc_to_markdown`. -/
def flask_allowed_extensions (task_type : Str) : Option (List Str) :=
  match TASK_TO_EXTENSIONS.lookup task_type with
  | some exts => some exts
  | none =>
      if "doc_to_markdown".toList <:+: task_type then some wordExts
      else none

/-- `backend/app.py` `upload_and_process`, modelled up to the point
where state is first persisted: presence checks, then the
extension-vs-task validation, and only after it directory creation and
file save.  The `secure_filename` sanitisation of the stem is omitted
as no claim depends on it. -/
def upload_and_process (hasFilePart : Bool) (filename : Str) (task_type : Str) :
    FlaskOutcome :=
  if hasFilePart = false then .errorNoFilePart
  else if filename = [] ∨ task_type = [] then .errorNoSelection
  else
    match flask_allowed_extensions task_type with
    | none => .errorTypeMismatch task_type (strLower (pathSuffix filename))
    | some exts =>
        if strLower (pathSuffix filename) ∉ exts then
          .errorTypeMismatch task_type (strLower (pathSuffix filename))
        else .persisted filename task_type

inductive PostPersist where
  /-- 400 `AI Provider not configured in .env`. -/
  | error400AIConfig
  /-- 400 `Unknown task type.`. -/
  | error400UnknownTask
  /-- `send_task` was called: a Celery job for the saved file now
  exists. -/
  | dispatched (task_name : String)

inductive DispatchOutcome where
  /-- 422 raised before anything is persisted. -/
  | error422
  /-- The named input file was saved and the output directory created
  before any task-type or extension inspection. -/
  | persistedThen (filename : Str) (next : PostPersist)

def aiTaskTypes : List Str :=
  ["doc_to_markdown".toList, "docx_to_markdown".toList, "pdf_to_markdown".toList]

/-- `backend/main.py` `upload_and_dispatch`: after the presence check
it saves the uploaded file and creates the output directory, and only
then examines `task_type`; the file extension is never validated
against the task type. -/
def upload_and_dispatch (hasFile : Bool) (filename task_type : Str)
    (aiConfigOk : Bool) : DispatchOutcome :=
  if hasFile = false ∨ task_type = [] then .error422
  else
    .persistedThen filename
      (if task_type = "ppt_to_pdf".toList then .dispatched "tasks.ppt_to_pdf"
       else if task_type ∈ aiTaskTypes then
         if aiConfigOk = false then .error400AIConfig
         else .dispatched "tasks.ai_conversion"
       else .error400UnknownTask)

/-- Claim C4 counterexample: submitting `slides.pdf` with
`taskType=ppt_to_pdf` to the FastAPI endpoint `upload_and_dispatch` in
`backend/main.py` is not rejected: the file is persisted and the
`tasks.ppt_to_pdf` job is dispatched, because that endpoint performs no
extension-vs-task validation at all. -/
theorem C4_counterexample :
    upload_and_dispatch true "slides.pdf".toList "ppt_to_pdf".toList true =
      .persistedThen "slides.pdf".toList (.dispatched "tasks.ppt_to_pdf") :=
  rfl

/-- Claim C4 (amended): only the Flask endpoint (`backend/app.py`
`upload_and_process`) validates the file extension against the task
type, rejecting a mismatch with a type-mismatch error before any file
is persisted or directory created; the FastAPI endpoint
(`backend/main.py` `upload_and_dispatch`) persists the file first and
dispatches `ppt_to_pdf` tasks whatever the extension. -/
theorem C4_validation_split (filename task_type : Str) (exts : List Str)
    (hfile : filename ≠ []) (htask : task_type ≠ [])
    (hexts : flask_allowed_extensions task_type = some exts)
    (hnot : strLower (pathSuffix filename) ∉ exts) :
    upload_and_process true filename task_type =
      .errorTypeMismatch task_type (strLower (pathSuffix filename)) ∧
    (∀ f cfg, upload_and_dispatch true f "ppt_to_pdf".toList cfg =
       .persistedThen f (.dispatched "tasks.ppt_to_pdf")) := by
  constructor
  · unfold upload_and_process
    rw [if_neg (by decide), if_neg (by simp [hfile, htask]), hexts]
    simp only []
    rw [if_pos hnot]
  · intro f cfg
    unfold upload_and_dispatch
    rw [if_neg (by decide), if_pos rfl]

theorem C4_validation_split_witness :
    upload_and_process true "report.pdf".toList "ppt_to_pdf".toList =
      .errorTypeMismatch "ppt_to_pdf".toList
        (strLower (pathSuffix "report.pdf".toList)) ∧
    (∀ f cfg, upload_and_dispatch true f "ppt_to_pdf".toList cfg =
       .persistedThen f (.dispatched "tasks.ppt_to_pdf")) :=
  C4_validation_split "report.pdf".toList "ppt_to_pdf".toList pptExts
    (by decide) (by decide) rfl (by decide)

/-! ## Job status endpoints -/

/-- A task status response (`schemas/task.py` `TaskStatusResponse`):
id, status string, optional result payload. -/
structure TaskStatusResponse where
  id : Nat
  status : String
  result : Option Json

/-- `backend/app/api/v1/endpoints/conversion_tasks.py`
`get_task_status`: looks the id up in the in-memory `tasks_db` dict and
raises `HTTPException(404, "Task not found")` when it is absent. -/
def get_task_status_db (tasks_db : List (Nat × TaskStatusResponse))
    (task_id : Nat) : Except (Nat × String) TaskStatusResponse :=
  match tasks_db.lookup task_id with
  | none => .error (404, "Task not found")
  | some t => .ok t

/-- The state Celery reports for a task id.  When an id was never
registered with the result backend, `AsyncResult(id).status` is
`PENDING` — Celery does not distinguish an unknown id from a queued
task. -/
inductive CeleryState where
  | pending
  | started
  | retry
  | succeeded (result : Json)
  | failedInfo (info : String)

/-- The Celery result backend: a map from task id to state; ids with no
entry report `PENDING`. -/
def celery_state (backend : List (Nat × CeleryState)) (task_id : Nat) :
    CeleryState :=
  (backend.lookup task_id).getD .pending

/-- `backend/app/main.py` `get_task_status`: maps a successful task to
`success` (the reshaping of its result payload is elided — the claims
concern only the status), a failed one to `failed` with the error
message, and `pending`/`started`/`retry` to `in_progress`; it returns
200 in every case and never raises 404. -/
def get_task_status_celery (backend : List (Nat × CeleryState))
    (task_id : Nat) : TaskStatusResponse :=
  match celery_state backend task_id with
  | .succeeded out => ⟨task_id, "success", some out⟩
  | .failedInfo info =>
      ⟨task_id, "failed", some (.obj [("error_message", .str info)])⟩
  | _ => ⟨task_id, "in_progress", none⟩

/-- Claim C9 counterexample: querying the Celery-backed status endpoint
of `backend/app/main.py` for id 7 against an empty result backend — an
id for which no job was ever created — returns status `in_progress`
with a 200 response instead of failing with a not-found error. -/
theorem C9_counterexample :
    get_task_status_celery [] 7 = ⟨7, "in_progress", none⟩ :=
  rfl

/-- Claim C9 (amended): the router endpoint backed by the in-memory
`tasks_db` (`conversion_tasks.py` `get_task_status`) fails with 404 for
every id not in the store; the Celery-backed endpoint of
`backend/app/main.py`, however, reports `in_progress` for every id
unknown to the result backend, because Celery reports unknown ids as
`PENDING`. -/
theorem C9_not_found_split (db : List (Nat × TaskStatusResponse))
    (backend : List (Nat × CeleryState)) (task_id : Nat)
    (hdb : db.lookup task_id = none)
    (hb : backend.lookup task_id = none) :
    get_task_status_db db task_id = .error (404, "Task not found") ∧
    get_task_status_celery backend task_id =
      ⟨task_id, "in_progress", none⟩ := by
  constructor
  · unfold get_task_status_db
    rw [hdb]
  · unfold get_task_status_celery celery_state
    rw [hb]
    rfl

theorem C9_not_found_split_witness :
    get_task_status_db [] 3 = .error (404, "Task not found") ∧
    get_task_status_celery [] 3 = ⟨3, "in_progress", none⟩ :=
  C9_not_found_split [] [] 3 rfl rfl

end ADC
